import Mathlib

/-!
Shallow embedding of the akari container runtime's control plane, translated
from the repository sources:

* `crates/server/src/main.rs` — the `ContainerService` lifecycle operations
  (`do_create`, `do_delete`, `do_kill`, `do_start`, `do_state`, `do_connect`)
  over the container state map;
* `crates/libakari/src/vm_rpc.rs` — the `VmCommand`, `VmStatus`, `Response`,
  `CreateRequest` and `Error` types;
* `crates/libakari/src/container_rpc.rs` — the `ContainerCommand` enum;
* `crates/vmm/src/vm.rs` — the `Vm` vsock-port bookkeeping
  (`connect`, `disconnect` over `vsock_queues`);
* `src/api.rs` — the NUL-delimited JSON framing (`Command::send` / `recv`).

Machine integers (`u32` ports) are modelled as `Nat`: the source never performs
arithmetic that can overflow (`max` of existing ports plus one, starting from
1233, with at most one increment per container).  Byte vectors are `List Nat`.
The `HashMap<String, ContainerState>` is modelled as an association list with
the usual insert/replace, point-lookup and point-removal operations; the map
produced by the operations never holds a duplicate key.
-/

deriving instance DecidableEq for Except

namespace Akari

/-- Container status, from `libakari/src/vm_rpc.rs` (`VmStatus`). -/
inductive VmStatus
  | Creating
  | Created
  | Running
  | Stopped
deriving DecidableEq, Repr

/-- Commands shipped to the in-VM agent, from `libakari/src/container_rpc.rs`
(`ContainerCommand`).  The `Create` variant's boxed OCI spec payload is not
inspected by any lifecycle operation and is elided here. -/
inductive ContainerCommand
  | Create
  | Delete
  | Kill
  | Start
  | State
deriving DecidableEq, Repr

/-- Commands sent on the VM command channel, from `libakari/src/vm_rpc.rs`
(`VmCommand`).  `VsockSend` carries the serialized `ContainerCommand`; since
serde's JSON serialization of that enum is injective the payload is modelled
as the command value itself. -/
inductive VmCommand
  | Start
  | Stop
  | Pause
  | Resume
  | Connect (port : Nat)
  | Disconnect (port : Nat)
  | VsockSend (port : Nat) (cmd : ContainerCommand)
  | VsockRecv (port : Nat)
deriving DecidableEq, Repr

/-- Error kinds, from `libakari/src/vm_rpc.rs` (`Error`).  The misspelling
`UnpextectedContainerStatus` is the source's. -/
inductive Error
  | ContainerAlreadyExists
  | ContainerNotFound
  | UnpextectedContainerStatus (s : VmStatus)
  | LockPoisoned
  | ThreadNotFound
  | VmCommandFailed
deriving DecidableEq, Repr

/-- Per-container record, from `crates/server/src/main.rs` lines 63-68
(`ContainerState`).  `PathBuf` is modelled as `String`, `u32` as `Nat`. -/
structure ContainerState where
  bundle : String
  status : VmStatus
  vsock_port : Nat
deriving DecidableEq, Repr

/-- Create-request payload, from `libakari/src/vm_rpc.rs` (`CreateRequest`). -/
structure CreateRequest where
  bundle : String
  rootfs : String
  stdin : Option String
  stdout : Option String
  stderr : Option String
deriving DecidableEq, Repr

/-- State response, from `libakari/src/vm_rpc.rs` (`Response`). -/
structure Response where
  container_id : String
  status : VmStatus
  pid : Option Int
  bundle : String
deriving DecidableEq, Repr

/-- The container state map `HashMap<String, ContainerState>`
(`crates/server/src/main.rs` line 70), as an association list. -/
abbrev ContainerStateMap := List (String × ContainerState)

/-- Point lookup (`HashMap::get`). -/
def lookupId (m : ContainerStateMap) (id : String) : Option ContainerState :=
  match m with
  | [] => none
  | (k, v) :: rest => if k = id then some v else lookupId rest id

/-- Key-presence test (`HashMap::contains_key`). -/
def containsId (m : ContainerStateMap) (id : String) : Bool :=
  (lookupId m id).isSome

/-- Insert-or-replace (`HashMap::insert`). -/
def insertId (m : ContainerStateMap) (id : String) (st : ContainerState) :
    ContainerStateMap :=
  match m with
  | [] => [(id, st)]
  | (k, v) :: rest =>
      if k = id then (k, st) :: rest else (k, v) :: insertId rest id st

/-- Point removal (`HashMap::remove`). -/
def removeId (m : ContainerStateMap) (id : String) : ContainerStateMap :=
  match m with
  | [] => []
  | (k, v) :: rest => if k = id then rest else (k, v) :: removeId rest id

/-- In-place mutation of an existing entry (`HashMap::get_mut` followed by a
field assignment). -/
def updateId (m : ContainerStateMap) (id : String) (st : ContainerState) :
    ContainerStateMap :=
  match m with
  | [] => []
  | (k, v) :: rest =>
      if k = id then (k, st) :: rest else (k, v) :: updateId rest id st

/-- Minimum vsock port, `crates/server/src/main.rs` line 103
(`DEFAULT_MIN_PORT`). -/
def DEFAULT_MIN_PORT : Nat := 1234

/-- Port allocation, `crates/server/src/main.rs` lines 102-108: start from
`DEFAULT_MIN_PORT - 1`, take the maximum over all `vsock_port` values present
in the state map, then add one. -/
def allocVsockPort (m : ContainerStateMap) : Nat :=
  (m.foldl (fun port s => max port s.2.vsock_port) (DEFAULT_MIN_PORT - 1)) + 1

/-- Outcome of `do_create`.  `panicked` models the `.unwrap()` calls on the
`config.json` read/parse (`crates/server/src/main.rs` lines 99-100), which
abort the request instead of returning an error. -/
inductive CreateResult
  | panicked (m : ContainerStateMap)
  | errored (e : Error) (m : ContainerStateMap)
  | ok (m : ContainerStateMap) (cmds : List VmCommand)
deriving DecidableEq, Repr

/-- `ContainerService::do_create`, `crates/server/src/main.rs` lines 82-134.
`configOk` is the outcome of `std::fs::read_to_string(bundle/config.json)`
followed by `oci_spec::runtime::Spec::load` (both `.unwrap()`ed: failure is a
panic).  `ack` is the `(port, data)` pair returned by `data_rx.recv().await`;
the `let (port, _data) = ...` at line 123 shadows the allocated port, so the
inserted `ContainerState` records `ack.1`, not the allocated port.  The
channel sends are modelled as succeeding; the commands sent on `cmd_tx` are
returned as a trace.  The inserted status is `Creating` (line 127) and is
never subsequently changed to `Created`. -/
def do_create (m : ContainerStateMap) (container_id : String)
    (req : CreateRequest) (configOk : Bool) (ack : Nat × List Nat) :
    CreateResult :=
  if containsId m container_id then
    CreateResult.errored Error.ContainerAlreadyExists m
  else if !configOk then
    CreateResult.panicked m
  else
    let port := allocVsockPort m
    let cmds := [VmCommand.Connect port,
                 VmCommand.VsockSend port ContainerCommand.Create]
    let st : ContainerState :=
      { bundle := req.bundle, status := VmStatus.Creating, vsock_port := ack.1 }
    CreateResult.ok (insertId m container_id st) cmds

/-- `ContainerService::do_delete`, `crates/server/src/main.rs` lines 136-163:
legal only in `Created` or `Stopped`; ships `Delete` then `Disconnect` and
removes the entry. -/
def do_delete (m : ContainerStateMap) (container_id : String) :
    Except Error Unit × ContainerStateMap × List VmCommand :=
  match lookupId m container_id with
  | none => (Except.error Error.ContainerNotFound, m, [])
  | some st =>
    match st.status with
    | VmStatus.Created | VmStatus.Stopped =>
        (Except.ok (), removeId m container_id,
         [VmCommand.VsockSend st.vsock_port ContainerCommand.Delete,
          VmCommand.Disconnect st.vsock_port])
    | s => (Except.error (Error.UnpextectedContainerStatus s), m, [])

/-- `ContainerService::do_kill`, `crates/server/src/main.rs` lines 165-188:
legal only in `Created` or `Running`; ships `Kill` and sets status to
`Stopped`. -/
def do_kill (m : ContainerStateMap) (container_id : String) :
    Except Error Unit × ContainerStateMap × List VmCommand :=
  match lookupId m container_id with
  | none => (Except.error Error.ContainerNotFound, m, [])
  | some st =>
    match st.status with
    | VmStatus.Created | VmStatus.Running =>
        (Except.ok (),
         updateId m container_id { st with status := VmStatus.Stopped },
         [VmCommand.VsockSend st.vsock_port ContainerCommand.Kill])
    | s => (Except.error (Error.UnpextectedContainerStatus s), m, [])

/-- `ContainerService::do_start`, `crates/server/src/main.rs` lines 190-213:
legal only in `Created`; ships `Start` and sets status to `Running`. -/
def do_start (m : ContainerStateMap) (container_id : String) :
    Except Error Unit × ContainerStateMap × List VmCommand :=
  match lookupId m container_id with
  | none => (Except.error Error.ContainerNotFound, m, [])
  | some st =>
    match st.status with
    | VmStatus.Created =>
        (Except.ok (),
         updateId m container_id { st with status := VmStatus.Running },
         [VmCommand.VsockSend st.vsock_port ContainerCommand.Start])
    | s => (Except.error (Error.UnpextectedContainerStatus s), m, [])

/-- `ContainerService::do_state`, `crates/server/src/main.rs` lines 215-238:
succeeds in any status, ships `State` to the agent (reply ignored) and
returns the record; the pid is always `None` (line 230, `TODO`). -/
def do_state (m : ContainerStateMap) (container_id : String) :
    Except Error Response × ContainerStateMap × List VmCommand :=
  match lookupId m container_id with
  | none => (Except.error Error.ContainerNotFound, m, [])
  | some st =>
      (Except.ok { container_id := container_id, status := st.status,
                   pid := none, bundle := st.bundle },
       m, [VmCommand.VsockSend st.vsock_port ContainerCommand.State])

/-- `ContainerService::do_connect`, `crates/server/src/main.rs` lines 240-257:
legal only in `Running`; the body is a `TODO` and performs no action. -/
def do_connect (m : ContainerStateMap) (container_id : String) (_port : Nat) :
    Except Error Unit × ContainerStateMap × List VmCommand :=
  match lookupId m container_id with
  | none => (Except.error Error.ContainerNotFound, m, [])
  | some st =>
    match st.status with
    | VmStatus.Running => (Except.ok (), m, [])
    | s => (Except.error (Error.UnpextectedContainerStatus s), m, [])

/-- One exposed operation of the control server, with the environment inputs
that `do_create` consumes (config parse outcome and the `data_rx` message). -/
inductive Op
  | create (id : String) (req : CreateRequest) (configOk : Bool)
      (ack : Nat × List Nat)
  | start (id : String)
  | kill (id : String)
  | delete (id : String)
  | state (id : String)
  | connect (id : String) (port : Nat)

/-- The state map after one operation (whatever its result). -/
def applyOp (m : ContainerStateMap) : Op → ContainerStateMap
  | Op.create id req configOk ack =>
      match do_create m id req configOk ack with
      | CreateResult.panicked m' => m'
      | CreateResult.errored _ m' => m'
      | CreateResult.ok m' _ => m'
  | Op.start id => (do_start m id).2.1
  | Op.kill id => (do_kill m id).2.1
  | Op.delete id => (do_delete m id).2.1
  | Op.state id => (do_state m id).2.1
  | Op.connect id port => (do_connect m id port).2.1

/-- The state map after a sequence of operations. -/
def runOps (m : ContainerStateMap) : List Op → ContainerStateMap
  | [] => m
  | op :: rest => runOps (applyOp m op) rest

namespace Vmm

/-- Error kinds of the vmm crate, `crates/vmm/src/vm.rs` lines 26-42
(`vmm::vm::Error`); payloads of the wrapped variants are elided. -/
inductive Error
  | InvalidConfiguration
  | FailedToStartVm
  | FailedToStopVm
  | MpscRecv
  | LockPoisoned
  | InvalidVsockPort
  | Io
deriving DecidableEq, Repr

/-- The `vsock_queues` field of `Vm` (`crates/vmm/src/vm.rs` line 44):
`HashMap<u32, (VecDeque<Vec<u8>>, VecDeque<Vec<u8>>)>` mapping a port to its
pair of (tx, rx) byte-vector queues, as an association list. -/
abbrev VsockQueues := List (Nat × (List (List Nat) × List (List Nat)))

/-- Point lookup in `vsock_queues`. -/
def lookupPort (q : VsockQueues) (port : Nat) :
    Option (List (List Nat) × List (List Nat)) :=
  match q with
  | [] => none
  | (p, v) :: rest => if p = port then some v else lookupPort rest port

/-- Point removal in `vsock_queues` (`HashMap::remove`). -/
def removePort (q : VsockQueues) (port : Nat) : VsockQueues :=
  match q with
  | [] => []
  | (p, v) :: rest => if p = port then rest else (p, v) :: removePort rest port

/-- `Vm::connect`, `crates/vmm/src/vm.rs` lines 134-197: fails with
`InvalidVsockPort` when `vsock_queues` already contains the port (lines
137-142); otherwise it enqueues the asynchronous hypervisor connect and
returns the `Ok(())` that the enqueued block sends on the reply channel right
after issuing it (line 183).  No code path in the crate inserts the port into
`vsock_queues`, so the map is returned unchanged in both branches. -/
def Vm.connect (q : VsockQueues) (port : Nat) :
    Except Error Unit × VsockQueues :=
  if (lookupPort q port).isSome then (Except.error Error.InvalidVsockPort, q)
  else (Except.ok (), q)

/-- `Vm::disconnect`, `crates/vmm/src/vm.rs` lines 249-256: remove the port's
entry from `vsock_queues`; `InvalidVsockPort` when absent. -/
def Vm.disconnect (q : VsockQueues) (port : Nat) :
    Except Error Unit × VsockQueues :=
  if (lookupPort q port).isSome then (Except.ok (), removePort q port)
  else (Except.error Error.InvalidVsockPort, q)

/-- `Vm::vsock_send`, `crates/vmm/src/vm.rs` lines 258-268: push the data onto
the port's tx queue; `InvalidVsockPort` when the port has no entry. -/
def Vm.vsock_send (q : VsockQueues) (port : Nat) (data : List Nat) :
    Except Error Unit × VsockQueues :=
  match lookupPort q port with
  | some (txq, rxq) =>
      (Except.ok (),
       (removePort q port).concat (port, (txq.concat data, rxq)))
  | none => (Except.error Error.InvalidVsockPort, q)

end Vmm

/-- The `Command` enum of `src/api.rs` lines 11-19, the NUL-framed message
type of the host/guest wire protocol. -/
inductive ApiCommand
  | Create
  | Delete
  | Kill
  | Start
  | State
deriving DecidableEq, Repr

/-- UTF-8 bytes of an ASCII string, as `Nat`s. -/
def asciiBytes (s : String) : List Nat := s.toList.map Char.toNat

/-- serde_json serialization of `Command` (`src/api.rs`): with
`serde(rename_all = "camelCase")`, each unit variant serializes as the JSON
string of its camelCase name. -/
def ApiCommand.toJsonBytes : ApiCommand → List Nat
  | ApiCommand.Create => asciiBytes "\"create\""
  | ApiCommand.Delete => asciiBytes "\"delete\""
  | ApiCommand.Kill => asciiBytes "\"kill\""
  | ApiCommand.Start => asciiBytes "\"start\""
  | ApiCommand.State => asciiBytes "\"state\""

/-- `Command::send`, `src/api.rs` lines 22-27: write the JSON serialization,
then a single NUL byte (the flush does not change the byte stream). -/
def ApiCommand.send (c : ApiCommand) : List Nat := c.toJsonBytes ++ [0]

/-- The byte-reading loop of `Command::recv`, `src/api.rs` lines 30-38: read
one byte at a time into a buffer until a NUL byte is seen.  `none` models
`read_exact` failing because the stream ended before a NUL arrived. -/
def readFrame : List Nat → Option (List Nat × List Nat)
  | [] => none
  | b :: rest =>
      if b = 0 then some ([], rest)
      else
        match readFrame rest with
        | some (buf, rem) => some (b :: buf, rem)
        | none => none

/-- `serde_json::from_slice::<Command>` (`src/api.rs` line 39) restricted to
canonical serializations: the buffer must be exactly the JSON string of one
of the five variant names.  (serde_json also tolerates surrounding JSON
whitespace; only canonical encoder output is decoded in this development.) -/
def ApiCommand.fromJsonBytes (buf : List Nat) : Option ApiCommand :=
  if buf = asciiBytes "\"create\"" then some ApiCommand.Create
  else if buf = asciiBytes "\"delete\"" then some ApiCommand.Delete
  else if buf = asciiBytes "\"kill\"" then some ApiCommand.Kill
  else if buf = asciiBytes "\"start\"" then some ApiCommand.Start
  else if buf = asciiBytes "\"state\"" then some ApiCommand.State
  else none

/-- `Command::recv`, `src/api.rs` lines 29-41: read bytes until the NUL
delimiter, then JSON-decode the buffer.  Returns the decoded value and the
unconsumed remainder of the stream. -/
def ApiCommand.recv (input : List Nat) : Option (ApiCommand × List Nat) :=
  match readFrame input with
  | none => none
  | some (buf, rest) =>
      match ApiCommand.fromJsonBytes buf with
      | none => none
      | some c => some (c, rest)

/-! Lookup lemmas for the association-list state map. -/

theorem lookupId_insertId_ne (id idx : String) (stx : ContainerState)
    (h : id ≠ idx) :
    ∀ m : ContainerStateMap, lookupId (insertId m idx stx) id = lookupId m id := by
  intro m
  induction m with
  | nil => simp [insertId, lookupId, Ne.symm h]
  | cons kv rest ih =>
      obtain ⟨k, v⟩ := kv
      by_cases hk : k = idx
      · subst hk
        simp [insertId, lookupId, Ne.symm h]
      · simp only [insertId, hk, if_false, lookupId]
        by_cases hki : k = id
        · simp [hki]
        · simp [hki, ih]

theorem lookupId_updateId_ne (id idx : String) (stx : ContainerState)
    (h : id ≠ idx) :
    ∀ m : ContainerStateMap, lookupId (updateId m idx stx) id = lookupId m id := by
  intro m
  induction m with
  | nil => simp [updateId, lookupId]
  | cons kv rest ih =>
      obtain ⟨k, v⟩ := kv
      by_cases hk : k = idx
      · subst hk
        simp [updateId, lookupId, Ne.symm h]
      · simp only [updateId, hk, if_false, lookupId]
        by_cases hki : k = id
        · simp [hki]
        · simp [hki, ih]

theorem lookupId_removeId_ne (id idx : String) (h : id ≠ idx) :
    ∀ m : ContainerStateMap, lookupId (removeId m idx) id = lookupId m id := by
  intro m
  induction m with
  | nil => simp [removeId, lookupId]
  | cons kv rest ih =>
      obtain ⟨k, v⟩ := kv
      by_cases hk : k = idx
      · subst hk
        simp [removeId, lookupId, Ne.symm h]
      · simp only [removeId, hk, if_false, lookupId]
        by_cases hki : k = id
        · simp [hki]
        · simp [hki, ih]

/-- C2: the container status after each operation follows the lifecycle state
machine: `start` succeeds exactly from `Created` and sets `Running`; `kill`
succeeds exactly from `Created` or `Running` and sets `Stopped`; `delete`
succeeds exactly from `Created` or `Stopped` and removes the entry; an
operation whose status guard fails returns `UnpextectedContainerStatus` with
the current status and leaves the state map unchanged. -/
theorem lifecycle_state_machine (m : ContainerStateMap) (id : String)
    (st : ContainerState) (h : lookupId m id = some st) :
    (st.status = VmStatus.Created →
      do_start m id = (Except.ok (),
        updateId m id { st with status := VmStatus.Running },
        [VmCommand.VsockSend st.vsock_port ContainerCommand.Start])) ∧
    (st.status ≠ VmStatus.Created →
      do_start m id =
        (Except.error (Error.UnpextectedContainerStatus st.status), m, [])) ∧
    ((st.status = VmStatus.Created ∨ st.status = VmStatus.Running) →
      do_kill m id = (Except.ok (),
        updateId m id { st with status := VmStatus.Stopped },
        [VmCommand.VsockSend st.vsock_port ContainerCommand.Kill])) ∧
    (¬(st.status = VmStatus.Created ∨ st.status = VmStatus.Running) →
      do_kill m id =
        (Except.error (Error.UnpextectedContainerStatus st.status), m, [])) ∧
    ((st.status = VmStatus.Created ∨ st.status = VmStatus.Stopped) →
      do_delete m id = (Except.ok (), removeId m id,
        [VmCommand.VsockSend st.vsock_port ContainerCommand.Delete,
         VmCommand.Disconnect st.vsock_port])) ∧
    (¬(st.status = VmStatus.Created ∨ st.status = VmStatus.Stopped) →
      do_delete m id =
        (Except.error (Error.UnpextectedContainerStatus st.status), m, [])) := by
  obtain ⟨bundle, status, port⟩ := st
  cases status <;> simp_all [do_start, do_kill, do_delete]

/-- Witness for C2 at a concrete one-container map in status `Created`. -/
theorem lifecycle_state_machine_witness :
    lookupId [("c", ⟨"/b", VmStatus.Created, 1234⟩)] "c" =
      some ⟨"/b", VmStatus.Created, 1234⟩ ∧
    do_start [("c", ⟨"/b", VmStatus.Created, 1234⟩)] "c" = (Except.ok (),
      [("c", ⟨"/b", VmStatus.Running, 1234⟩)],
      [VmCommand.VsockSend 1234 ContainerCommand.Start]) :=
  ⟨rfl,
   (lifecycle_state_machine [("c", ⟨"/b", VmStatus.Created, 1234⟩)] "c"
      ⟨"/b", VmStatus.Created, 1234⟩ rfl).1 rfl⟩

/-- C6: for a container id present in the state map, `state` succeeds in any
status and returns the id, the current status, the pid (always `none` in this
code) and the bundle path; for an absent id it returns `ContainerNotFound`. -/
theorem state_query (m : ContainerStateMap) (id : String) :
    (∀ st : ContainerState, lookupId m id = some st →
      do_state m id = (Except.ok ⟨id, st.status, none, st.bundle⟩, m,
        [VmCommand.VsockSend st.vsock_port ContainerCommand.State])) ∧
    (lookupId m id = none →
      do_state m id = (Except.error Error.ContainerNotFound, m, [])) := by
  constructor
  · intro st h
    simp [do_state, h]
  · intro h
    simp [do_state, h]

/-- Witness for C6: a present id in status `Running` and an absent id. -/
theorem state_query_witness :
    do_state [("c", ⟨"/b", VmStatus.Running, 5⟩)] "c" =
      (Except.ok ⟨"c", VmStatus.Running, none, "/b"⟩,
       [("c", ⟨"/b", VmStatus.Running, 5⟩)],
       [VmCommand.VsockSend 5 ContainerCommand.State]) ∧
    do_state [] "nope" = (Except.error Error.ContainerNotFound, [], []) :=
  ⟨(state_query [("c", ⟨"/b", VmStatus.Running, 5⟩)] "c").1
      ⟨"/b", VmStatus.Running, 5⟩ rfl,
   (state_query [] "nope").2 rfl⟩

/-- No single exposed operation changes or removes a state-map entry whose
status is `Creating`: `create` on the same id fails the presence check, the
guarded operations reject `Creating`, and operations on other ids only touch
their own entries. -/
theorem creating_preserved_applyOp (m : ContainerStateMap) (id : String)
    (st : ContainerState) (h : lookupId m id = some st)
    (hs : st.status = VmStatus.Creating) (op : Op) :
    lookupId (applyOp m op) id = some st := by
  cases op with
  | create idx req cfg ack =>
      by_cases hid : idx = id
      · subst hid
        have hc : containsId m idx = true := by simp [containsId, h]
        simp [applyOp, do_create, hc, h]
      · by_cases hc : containsId m idx
        · simp [applyOp, do_create, hc, h]
        · cases cfg with
          | false => simp [applyOp, do_create, hc, h]
          | true =>
              simp only [applyOp, do_create, hc, if_false, Bool.not_true,
                Bool.false_eq_true]
              rw [lookupId_insertId_ne id idx _ (fun hh => hid hh.symm)]
              exact h
  | start idx =>
      by_cases hid : idx = id
      · subst hid
        simp [applyOp, do_start, h, hs]
      · cases hl : lookupId m idx with
        | none => simp [applyOp, do_start, hl, h]
        | some stx =>
            cases hsc : stx.status with
            | Created =>
                simp only [applyOp, do_start, hl, hsc]
                rw [lookupId_updateId_ne id idx _ (fun hh => hid hh.symm)]
                exact h
            | Creating => simp [applyOp, do_start, hl, hsc, h]
            | Running => simp [applyOp, do_start, hl, hsc, h]
            | Stopped => simp [applyOp, do_start, hl, hsc, h]
  | kill idx =>
      by_cases hid : idx = id
      · subst hid
        simp [applyOp, do_kill, h, hs]
      · cases hl : lookupId m idx with
        | none => simp [applyOp, do_kill, hl, h]
        | some stx =>
            cases hsc : stx.status with
            | Created =>
                simp only [applyOp, do_kill, hl, hsc]
                rw [lookupId_updateId_ne id idx _ (fun hh => hid hh.symm)]
                exact h
            | Running =>
                simp only [applyOp, do_kill, hl, hsc]
                rw [lookupId_updateId_ne id idx _ (fun hh => hid hh.symm)]
                exact h
            | Creating => simp [applyOp, do_kill, hl, hsc, h]
            | Stopped => simp [applyOp, do_kill, hl, hsc, h]
  | delete idx =>
      by_cases hid : idx = id
      · subst hid
        simp [applyOp, do_delete, h, hs]
      · cases hl : lookupId m idx with
        | none => simp [applyOp, do_delete, hl, h]
        | some stx =>
            cases hsc : stx.status with
            | Created =>
                simp only [applyOp, do_delete, hl, hsc]
                rw [lookupId_removeId_ne id idx (fun hh => hid hh.symm)]
                exact h
            | Stopped =>
                simp only [applyOp, do_delete, hl, hsc]
                rw [lookupId_removeId_ne id idx (fun hh => hid hh.symm)]
                exact h
            | Creating => simp [applyOp, do_delete, hl, hsc, h]
            | Running => simp [applyOp, do_delete, hl, hsc, h]
  | state idx =>
      cases hl : lookupId m idx <;> simp [applyOp, do_state, hl, h]
  | connect idx port =>
      cases hl : lookupId m idx with
      | none => simp [applyOp, do_connect, hl, h]
      | some stx =>
          cases hsc : stx.status <;> simp [applyOp, do_connect, hl, hsc, h]

/-- A `Creating` entry survives any sequence of exposed operations with its
record unchanged. -/
theorem creating_preserved_runOps (id : String) (st : ContainerState)
    (hs : st.status = VmStatus.Creating) :
    ∀ (ops : List Op) (m : ContainerStateMap), lookupId m id = some st →
      lookupId (runOps m ops) id = some st := by
  intro ops
  induction ops with
  | nil =>
      intro m h
      simpa [runOps] using h
  | cons op rest ih =>
      intro m h
      simp only [runOps]
      exact ih _ (creating_preserved_applyOp m id st h hs op)

/-- C10: on a container whose recorded status is `Creating`, each of `start`,
`kill`, `delete` and `connect` returns `UnpextectedContainerStatus` and leaves
the state map unchanged, and no sequence of exposed operations ever changes
or removes the entry, so it stays in the map in `Creating` status forever. -/
theorem creating_container_is_stuck (m : ContainerStateMap) (id : String)
    (st : ContainerState) (h : lookupId m id = some st)
    (hs : st.status = VmStatus.Creating) :
    do_start m id =
      (Except.error (Error.UnpextectedContainerStatus VmStatus.Creating),
       m, []) ∧
    do_kill m id =
      (Except.error (Error.UnpextectedContainerStatus VmStatus.Creating),
       m, []) ∧
    do_delete m id =
      (Except.error (Error.UnpextectedContainerStatus VmStatus.Creating),
       m, []) ∧
    (∀ port, do_connect m id port =
      (Except.error (Error.UnpextectedContainerStatus VmStatus.Creating),
       m, [])) ∧
    (∀ ops : List Op, lookupId (runOps m ops) id = some st) := by
  refine ⟨?_, ?_, ?_, fun port => ?_,
    fun ops => creating_preserved_runOps id st hs ops m h⟩ <;>
      simp [do_start, do_kill, do_delete, do_connect, h, hs]

/-- Witness for C10 at a concrete one-container map in status `Creating`. -/
theorem creating_container_is_stuck_witness :
    lookupId [("c", ⟨"/b", VmStatus.Creating, 1234⟩)] "c" =
      some ⟨"/b", VmStatus.Creating, 1234⟩ ∧
    do_start [("c", ⟨"/b", VmStatus.Creating, 1234⟩)] "c" =
      (Except.error (Error.UnpextectedContainerStatus VmStatus.Creating),
       [("c", ⟨"/b", VmStatus.Creating, 1234⟩)], []) ∧
    lookupId (runOps [("c", ⟨"/b", VmStatus.Creating, 1234⟩)]
        [Op.start "c", Op.kill "c", Op.delete "c"]) "c" =
      some ⟨"/b", VmStatus.Creating, 1234⟩ :=
  ⟨rfl,
   (creating_container_is_stuck [("c", ⟨"/b", VmStatus.Creating, 1234⟩)] "c"
      ⟨"/b", VmStatus.Creating, 1234⟩ rfl rfl).1,
   (creating_container_is_stuck [("c", ⟨"/b", VmStatus.Creating, 1234⟩)] "c"
      ⟨"/b", VmStatus.Creating, 1234⟩ rfl rfl).2.2.2.2
     [Op.start "c", Op.kill "c", Op.delete "c"]⟩

/-- C1: evaluation at the failing input.  A create on a fresh id (empty map,
id `c1`, acknowledgement `(1234, [])`) inserts the container with status
`Creating` — `do_create` never sets `Created`, no other operation accepts a
`Creating` container — so a state query issued immediately after the create
returns status `Creating`, not `Created`. -/
theorem create_then_state_returns_creating :
    do_create [] "c1" ⟨"/b/c1", "/b/c1/rfs", none, none, none⟩ true
        (1234, []) =
      CreateResult.ok [("c1", ⟨"/b/c1", VmStatus.Creating, 1234⟩)]
        [VmCommand.Connect 1234,
         VmCommand.VsockSend 1234 ContainerCommand.Create] ∧
    do_state [("c1", ⟨"/b/c1", VmStatus.Creating, 1234⟩)] "c1" =
      (Except.ok ⟨"c1", VmStatus.Creating, none, "/b/c1"⟩,
       [("c1", ⟨"/b/c1", VmStatus.Creating, 1234⟩)],
       [VmCommand.VsockSend 1234 ContainerCommand.State]) ∧
    VmStatus.Creating ≠ VmStatus.Created := by
  decide

/-- C3: evaluation at the failing input.  Because `do_create` records the
port carried by the data-channel acknowledgement (the shadowed `port` at
main.rs line 123) rather than the allocated port, two creates acknowledged
with the same port value produce two distinct ids with identical
`vsock_port`. -/
theorem duplicate_vsock_ports_reachable :
    runOps []
      [Op.create "a" ⟨"/b/a", "/b/a/rfs", none, none, none⟩ true (7, []),
       Op.create "b" ⟨"/b/b", "/b/b/rfs", none, none, none⟩ true (7, [])] =
      [("a", ⟨"/b/a", VmStatus.Creating, 7⟩),
       ("b", ⟨"/b/b", VmStatus.Creating, 7⟩)] ∧
    ("a" : String) ≠ "b" := by
  decide

/-- C4: evaluation at the failing input.  On an empty map the allocated port
is 1234 and is the one sent in `Connect` and `VsockSend`, but the recorded
`vsock_port` is the acknowledgement's port (4321 here), not the allocated
one. -/
theorem create_records_ack_port_not_allocated :
    allocVsockPort [] = 1234 ∧
    do_create [] "c1" ⟨"/b/c1", "/b/c1/rfs", none, none, none⟩ true
        (4321, []) =
      CreateResult.ok [("c1", ⟨"/b/c1", VmStatus.Creating, 4321⟩)]
        [VmCommand.Connect 1234,
         VmCommand.VsockSend 1234 ContainerCommand.Create] ∧
    (4321 : Nat) ≠ 1234 := by
  decide

/-- C5: evaluation at the failing input.  After `create("a")` the container's
status is `Creating`, so the immediately following `delete("a")` is rejected
with `UnpextectedContainerStatus` and the map still contains `"a"`; a
subsequent `create("a")` then fails with `ContainerAlreadyExists` instead of
succeeding with a strictly greater port. -/
theorem delete_after_create_is_rejected :
    do_create [] "a" ⟨"/b/a", "/b/a/rfs", none, none, none⟩ true (1234, []) =
      CreateResult.ok [("a", ⟨"/b/a", VmStatus.Creating, 1234⟩)]
        [VmCommand.Connect 1234,
         VmCommand.VsockSend 1234 ContainerCommand.Create] ∧
    do_delete [("a", ⟨"/b/a", VmStatus.Creating, 1234⟩)] "a" =
      (Except.error (Error.UnpextectedContainerStatus VmStatus.Creating),
       [("a", ⟨"/b/a", VmStatus.Creating, 1234⟩)], []) ∧
    containsId [("a", ⟨"/b/a", VmStatus.Creating, 1234⟩)] "a" = true ∧
    do_create [("a", ⟨"/b/a", VmStatus.Creating, 1234⟩)] "a"
        ⟨"/b/a", "/b/a/rfs", none, none, none⟩ true (1235, []) =
      CreateResult.errored Error.ContainerAlreadyExists
        [("a", ⟨"/b/a", VmStatus.Creating, 1234⟩)] := by
  decide

/-- C7: for any `vsock_queues` state not containing `port`, `Vm::connect`
succeeds but leaves `vsock_queues` unchanged (no code path registers the
port), so an immediately following `Vm::disconnect` on the same port fails
with `InvalidVsockPort` and a second `Vm::connect` succeeds again. -/
theorem vm_connect_does_not_register (q : Vmm.VsockQueues) (port : Nat)
    (h : Vmm.lookupPort q port = none) :
    Vmm.Vm.connect q port = (Except.ok (), q) ∧
    Vmm.Vm.disconnect (Vmm.Vm.connect q port).2 port =
      (Except.error Vmm.Error.InvalidVsockPort, q) ∧
    Vmm.Vm.connect (Vmm.Vm.connect q port).2 port = (Except.ok (), q) := by
  simp [Vmm.Vm.connect, Vmm.Vm.disconnect, h]

/-- Witness for C7 on the initial (empty) queue map at port 5000. -/
theorem vm_connect_does_not_register_witness :
    Vmm.lookupPort [] 5000 = none ∧
    (Vmm.Vm.connect [] 5000 = (Except.ok (), []) ∧
     Vmm.Vm.disconnect (Vmm.Vm.connect [] 5000).2 5000 =
       (Except.error Vmm.Error.InvalidVsockPort, []) ∧
     Vmm.Vm.connect (Vmm.Vm.connect [] 5000).2 5000 = (Except.ok (), [])) :=
  ⟨rfl, vm_connect_does_not_register [] 5000 rfl⟩

/-- C8: decoding the NUL-terminated encoding of a message yields the message
back with nothing left over, and a stream of two concatenated frames decodes
to exactly the two messages in order. -/
theorem framing_round_trip (c₁ c₂ : ApiCommand) :
    ApiCommand.recv (ApiCommand.send c₁) = some (c₁, []) ∧
    ApiCommand.recv (ApiCommand.send c₁ ++ ApiCommand.send c₂) =
      some (c₁, ApiCommand.send c₂) ∧
    ApiCommand.recv (ApiCommand.send c₂) = some (c₂, []) := by
  cases c₁ <;> cases c₂ <;> decide

/-- C9: when reading or parsing the bundle's `config.json` fails, `do_create`
panics (the two `.unwrap()` calls at main.rs lines 99-100) instead of
returning a validation error; the state map is returned unmodified and the
outcome is distinct from every error return. -/
theorem create_missing_config_panics (m : ContainerStateMap) (id : String)
    (req : CreateRequest) (ack : Nat × List Nat)
    (h : containsId m id = false) :
    do_create m id req false ack = CreateResult.panicked m ∧
    ∀ e : Error, ∀ m' : ContainerStateMap,
      CreateResult.panicked m ≠ CreateResult.errored e m' := by
  constructor
  · simp [do_create, h]
  · intro e m' hc
    exact CreateResult.noConfusion hc

/-- Witness for C9: a create on an empty map whose config read failed. -/
theorem create_missing_config_panics_witness :
    containsId [] "c1" = false ∧
    (do_create [] "c1" ⟨"/b/c1", "/b/c1/rfs", none, none, none⟩ false
        (0, []) = CreateResult.panicked [] ∧
     ∀ e : Error, ∀ m' : ContainerStateMap,
       CreateResult.panicked ([] : ContainerStateMap) ≠
         CreateResult.errored e m') :=
  ⟨rfl, create_missing_config_panics [] "c1"
    ⟨"/b/c1", "/b/c1/rfs", none, none, none⟩ (0, []) rfl⟩

end Akari
